import Mathlib

/-!
Verification development for the sparkflow-awstools repository.

The definitions below are a shallow embedding of the Python sources under
sparkflowtools/. Python dictionaries that are iterated in insertion order
are modelled as association lists; Python `None` / falsy checks on strings
are modelled with `Option String` plus explicit emptiness tests; exceptions
are modelled with `Except String`; boto3 remote calls are modelled as
oracles (`Nat → Except String R`, indexed by the retry attempt number).
Positions in the comments refer to files and line numbers of the repository.
-/

namespace Sparkflow

/-- A cluster tag: a dictionary of the shape described in
sparkflowtools/models/cluster.py (entries with a Key and a Value string). -/
structure Tag where
  key : String
  value : String
deriving DecidableEq, Repr

/-- Inner removal loop of EmrCluster.add_tags
(sparkflowtools/models/cluster.py lines 111-115).

The Python code iterates `for idx, registered_tag in enumerate(self.tags)`
while calling `self.tags.pop(idx)` on a key match. CPython list iterators
keep an integer position: after `pop(idx)` the iterator resumes at position
`idx + 1` of the shrunken list, so the element that slid into position `idx`
is never examined. `popLoopF k fuel p l` is that loop with the iterator at
position `p` of the current list `l`, removing entries whose key is `k`.
The loop advances the position on every rotation, and the list never grows,
so it performs at most `l.length` rotations from position 0; the structural
`fuel` argument is instantiated with `l.length` in `popLoop` below and is
never exhausted before the loop condition `p < l.length` fails. -/
def popLoopF (k : String) : Nat → Nat → List Tag → List Tag
  | 0, _, l => l
  | fuel + 1, p, l =>
    if h : p < l.length then
      if (l.get ⟨p, h⟩).key = k then
        popLoopF k fuel (p + 1) (l.eraseIdx p)
      else
        popLoopF k fuel (p + 1) l
    else
      l

/-- The removal loop of add_tags started at position 0, as executed for one
new tag against the currently registered tag list `l`. -/
def popLoop (k : String) (l : List Tag) : List Tag :=
  popLoopF k l.length 0 l

/-- EmrCluster.add_tags (sparkflowtools/models/cluster.py lines 104-117):
for each new tag, run the removal loop over the current tag list from
position 0, then extend with the whole new list. -/
def add_tags (tags : List Tag) (newTags : List Tag) : List Tag :=
  (newTags.foldl (fun acc t => popLoop t.key acc) tags) ++ newTags

/-- Keys of a tag list. -/
def tagKeys (l : List Tag) : List String := l.map Tag.key

/-- Whether some tag of `l` carries the key `k` (Python membership test on
the keys, as used by the merge semantics). -/
def hasKey (l : List Tag) (k : String) : Bool := l.any (fun t => t.key == k)

/-! Fleet catalog, from sparkflowtools/models/instance_fleets.py. -/

/-- One entry of an InstanceTypeConfigs list. Driver entries carry no bid
price; spot entries carry BidPriceAsPercentageOfOnDemandPrice, written 100.0
in the source and modelled as the natural number 100 (the value is stored,
never computed with). -/
structure InstanceTypeConfig where
  instanceType : String
  weightedCapacity : Nat
  bidPricePct : Option Nat
deriving DecidableEq, Repr

/-- The SpotSpecification block of LaunchSpecifications. -/
structure SpotSpec where
  timeoutDurationMinutes : Nat
  timeoutAction : String
deriving DecidableEq, Repr

/-- One of the three dictionaries returned by the Fleet.get_fleet method
(instance_fleets.py lines 37-74): the driver entry carries
TargetOnDemandCapacity and no LaunchSpecifications, the core and task
entries carry TargetSpotCapacity and a SpotSpecification. -/
structure InstanceFleetSpec where
  name : String
  instanceFleetType : String
  targetOnDemandCapacity : Option Nat
  targetSpotCapacity : Option Nat
  instanceTypeConfigs : List InstanceTypeConfig
  launchSpecifications : Option SpotSpec
deriving DecidableEq, Repr

/-- State of an instantiated Fleet subclass: the class attributes (name and
the three InstanceTypeConfigs tables) together with the constructor
attributes (instance counts and spot-timeout policy). -/
structure Fleet where
  name : String
  driverInstanceTypeConfigs : List InstanceTypeConfig
  coreInstanceTypeConfigs : List InstanceTypeConfig
  taskInstanceTypeConfigs : List InstanceTypeConfig
  coreInstanceCount : Nat
  taskInstanceCount : Nat
  timeoutDuration : Nat
  timeoutAction : String
deriving DecidableEq, Repr

/-- Base-class driver configs (instance_fleets.py lines 5-14), inherited by
every fleet subclass. -/
def defaultDriverConfigs : List InstanceTypeConfig :=
  [⟨"m5.xlarge", 1, none⟩, ⟨"m4.xlarge", 1, none⟩]

/-- Spot configs table shared by nano, tiny, small and standard fleets. -/
def xlargeSpotConfigs : List InstanceTypeConfig :=
  [⟨"m5.xlarge", 1, some 100⟩, ⟨"r4.xlarge", 1, some 100⟩,
   ⟨"r5.xlarge", 1, some 100⟩, ⟨"m4.xlarge", 1, some 100⟩]

/-- Spot configs table of the medium fleet. -/
def xlarge2SpotConfigs : List InstanceTypeConfig :=
  [⟨"m5.2xlarge", 1, some 100⟩, ⟨"r4.2xlarge", 1, some 100⟩,
   ⟨"r5.2xlarge", 1, some 100⟩, ⟨"m4.2xlarge", 1, some 100⟩]

/-- Spot configs table of the large fleet. -/
def xlarge4SpotConfigs : List InstanceTypeConfig :=
  [⟨"m5.4xlarge", 1, some 100⟩, ⟨"r4.4xlarge", 1, some 100⟩,
   ⟨"r5.4xlarge", 1, some 100⟩, ⟨"m4.4xlarge", 1, some 100⟩]

/-- Spot configs table of the huge fleet. -/
def xlarge8SpotConfigs : List InstanceTypeConfig :=
  [⟨"m5.8xlarge", 1, some 100⟩, ⟨"r4.8xlarge", 1, some 100⟩,
   ⟨"r5.8xlarge", 1, some 100⟩, ⟨"m4.8xlarge", 1, some 100⟩]

/-- NanoFleet() with its default constructor arguments. -/
def nanoFleet : Fleet :=
  ⟨"nano", defaultDriverConfigs, xlargeSpotConfigs, xlargeSpotConfigs, 2, 1, 25, "SWITCH_TO_ON_DEMAND"⟩

/-- TinyFleet() with its default constructor arguments. -/
def tinyFleet : Fleet :=
  ⟨"tiny", defaultDriverConfigs, xlargeSpotConfigs, xlargeSpotConfigs, 4, 1, 25, "SWITCH_TO_ON_DEMAND"⟩

/-- SmallFleet() with its default constructor arguments. -/
def smallFleet : Fleet :=
  ⟨"small", defaultDriverConfigs, xlargeSpotConfigs, xlargeSpotConfigs, 6, 6, 25, "SWITCH_TO_ON_DEMAND"⟩

/-- StandardFleet() with its default constructor arguments. -/
def standardFleet : Fleet :=
  ⟨"standard", defaultDriverConfigs, xlargeSpotConfigs, xlargeSpotConfigs, 10, 10, 25, "SWITCH_TO_ON_DEMAND"⟩

/-- MediumFleet() with its default constructor arguments. -/
def mediumFleet : Fleet :=
  ⟨"medium", defaultDriverConfigs, xlarge2SpotConfigs, xlarge2SpotConfigs, 12, 12, 25, "SWITCH_TO_ON_DEMAND"⟩

/-- LargeFleet() with its default constructor arguments. -/
def largeFleet : Fleet :=
  ⟨"large", defaultDriverConfigs, xlarge4SpotConfigs, xlarge4SpotConfigs, 24, 24, 25, "SWITCH_TO_ON_DEMAND"⟩

/-- HugeFleet() with its default constructor arguments. -/
def hugeFleet : Fleet :=
  ⟨"huge", defaultDriverConfigs, xlarge8SpotConfigs, xlarge8SpotConfigs, 48, 48, 25, "SWITCH_TO_ON_DEMAND"⟩

/-- The Fleet.get_fleet method (instance_fleets.py lines 37-74): the
driver, core and task fleet configuration dictionaries. -/
def Fleet.get_fleet (f : Fleet) : List InstanceFleetSpec :=
  [⟨"Driver Node", "MASTER", some 1, none, f.driverInstanceTypeConfigs, none⟩,
   ⟨"Core Nodes", "CORE", none, some f.coreInstanceCount, f.coreInstanceTypeConfigs,
     some ⟨f.timeoutDuration, f.timeoutAction⟩⟩,
   ⟨"Task Nodes", "TASK", none, some f.taskInstanceCount, f.taskInstanceTypeConfigs,
     some ⟨f.timeoutDuration, f.timeoutAction⟩⟩]

/-- The fleet_map dictionary built inside the module-level get_fleet
(instance_fleets.py lines 294-295): name of each fleet class mapped to a
fresh default instance. -/
def fleetCatalog : List (String × Fleet) :=
  [("nano", nanoFleet), ("tiny", tinyFleet), ("small", smallFleet),
   ("standard", standardFleet), ("medium", mediumFleet), ("large", largeFleet),
   ("huge", hugeFleet)]

/-- The registered fleet preset names, in catalog order. -/
def registeredFleetNames : List String := fleetCatalog.map Prod.fst

/-- Module-level get_fleet (instance_fleets.py lines 288-298): dictionary
lookup by name; an unregistered name raises ValueError, modelled as the
error case. -/
def get_fleet (fleet_name : String) : Except String Fleet :=
  match fleetCatalog.find? (fun p => p.1 == fleet_name) with
  | some p => .ok p.2
  | none => .error ("fleet type " ++ fleet_name ++ " is not one of the supported types")

/-! Retry configuration and executor, from sparkflowtools/utils/config.py
and the tenacity decorators used in utils/emr.py and utils/dynamo_db.py. -/

namespace AWSApiConfig

/-- AWSApiConfig.RETRY_MAX (config.py line 6). -/
def RETRY_MAX : Nat := 5

/-- AWSApiConfig.EXPONENTIAL_BACKOFF_MULTIPLIER (config.py line 7). -/
def EXPONENTIAL_BACKOFF_MULTIPLIER : Nat := 1

/-- AWSApiConfig.EXPONENTIAL_BACKOFF_MIN (config.py line 8). -/
def EXPONENTIAL_BACKOFF_MIN : Nat := 4

/-- AWSApiConfig.EXPONENTIAL_BACKOFF_MAX (config.py line 9). -/
def EXPONENTIAL_BACKOFF_MAX : Nat := 10

end AWSApiConfig

/-- Attempt loop of a tenacity retry decorator. `call i` is the body run on
attempt number `i` (0-based); `n` counts the retries still allowed after the
current attempt. A success is returned immediately; the failure of the final
attempt is surfaced (tenacity wraps it in RetryError carrying the last
attempt; we surface that last error value). The wait times between attempts
have no observable effect on the result and are not modelled. -/
def retryWrap {E A : Type} (call : Nat → Except E A) : Nat → Nat → Except E A
  | i, 0 => call i
  | i, n + 1 =>
    match call i with
    | .ok a => .ok a
    | .error _ => retryWrap call (i + 1) n

/-- A call wrapped in retry with stop_after_attempt, making at most
`attempts` attempts in total (`attempts` is AWSApiConfig.RETRY_MAX = 5 at
every use site, so it is at least 1). -/
def retryCall {E A : Type} (attempts : Nat) (call : Nat → Except E A) : Except E A :=
  retryWrap call 0 (attempts - 1)

/-! Remote EMR call wrappers, from sparkflowtools/utils/emr.py. Each boto3
endpoint is modelled as an oracle indexed by the attempt number. -/

/-- Response of the run_job_flow endpoint. -/
structure RunJobFlowResp where
  jobFlowId : String
  clusterArn : String
deriving DecidableEq, Repr

/-- The response dictionary assembled by emr.create_cluster. -/
structure CreateClusterResult where
  cluster_id : String
  cluster_arn : String
deriving DecidableEq, Repr

/-- emr.create_cluster (utils/emr.py lines 81-103). Unlike every other
remote wrapper in the module, the source attaches no retry decorator to this
function: it performs a single attempt and re-raises its failure after
logging. -/
def create_cluster (remote : Nat → Except String RunJobFlowResp) : Except String CreateClusterResult :=
  match remote 0 with
  | .error e => .error e
  | .ok r => .ok ⟨r.jobFlowId, r.clusterArn⟩

/-- The Status block of a describe_step response. -/
structure StepStatus where
  state : String
deriving DecidableEq, Repr

/-- Response of the describe_step endpoint (the Step block). -/
structure DescribeStepResp where
  status : StepStatus
deriving DecidableEq, Repr

/-- emr.get_step_status (utils/emr.py lines 20-48): retry-wrapped
describe_step; each attempt extracts the Status block and re-raises the
failure after logging. -/
def get_step_status (remote : Nat → Except String DescribeStepResp) : Except String StepStatus :=
  retryCall AWSApiConfig.RETRY_MAX (fun i =>
    match remote i with
    | .error e => .error e
    | .ok r => .ok r.status)

/-- Response of the add_job_flow_steps endpoint. -/
structure AddJobFlowStepsResp where
  stepIds : List String
deriving DecidableEq, Repr

/-- emr.submit_step (utils/emr.py lines 51-78): retry-wrapped
add_job_flow_steps, returning the raw response and re-raising failures. -/
def submit_step (remote : Nat → Except String AddJobFlowStepsResp) : Except String AddJobFlowStepsResp :=
  retryCall AWSApiConfig.RETRY_MAX remote

/-- EC2 attributes of a describe_cluster response, as consumed by
EmrCluster.add_ec2_attributes (cluster.py lines 68-80). -/
structure Ec2Attributes where
  ec2KeyName : String
  ec2SubnetId : String
  ec2AvailabilityZone : String
  iamInstanceProfile : String
  emrManagedMasterSecurityGroup : String
  emrManagedSlaveSecurityGroup : String
deriving DecidableEq, Repr

/-- One Applications entry of a describe_cluster response. A remote
description carries metadata beyond the name (for instance a version);
EmrCluster.add_applications keeps only the Name field. -/
structure Application where
  name : String
  version : String
deriving DecidableEq, Repr

/-- The Cluster block of a describe_cluster response, restricted to the
fields read by EmrBuilder._create_cluster_from_cluster_info. -/
structure ClusterInfo where
  logUri : String
  releaseLabel : String
  applications : List Application
  ec2InstanceAttributes : Ec2Attributes
  autoTerminate : Bool
  terminationProtected : Bool
  tags : List Tag
  configurations : List String
  serviceRole : String
deriving DecidableEq, Repr

/-- emr.get_cluster_info (utils/emr.py lines 106-132): retry-wrapped
describe_cluster returning the Cluster block, re-raising failures. -/
def get_cluster_info (remote : Nat → Except String ClusterInfo) : Except String ClusterInfo :=
  retryCall AWSApiConfig.RETRY_MAX remote

/-- emr.terminate_clusters (utils/emr.py lines 135-159): retry-wrapped
terminate_job_flows, re-raising failures. -/
def terminate_clusters (remote : Nat → Except String Unit) : Except String Unit :=
  retryCall AWSApiConfig.RETRY_MAX remote

/-! Step model, from sparkflowtools/models/step.py. -/

/-- Python falsy test on an optional string attribute (None or the empty
string are falsy). -/
def optFalsy : Option String → Bool
  | none => true
  | some s => s == ""

/-- EmrStep state (step.py lines 9-20). step_status is the empty dictionary
at construction, modelled as none. -/
structure EmrStep where
  name : String
  step_id : Option String
  step_status : Option StepStatus
  action_on_failure : String
  cluster_id : Option String
  script_path : String
  spark_args : List (String × String)
  job_args : List (String × String)
  job_class : Option String
  job_jar : Option String
deriving DecidableEq, Repr

/-- EmrStep.__init__ with a given name. -/
def EmrStep.init (name : String) : EmrStep :=
  ⟨name, none, none, "TERMINATE_CLUSTER", none, "command-runner.jar", [], [], none, none⟩

/-- EmrStep.parse_input_args (step.py lines 22-29): each dictionary entry
becomes the two-element list of its key and value, in insertion order. -/
def parse_input_args (args : List (String × String)) : List (List String) :=
  args.map (fun p => [p.1, p.2])

/-- EmrStep._validate_args followed by _populate_spark_submit_args (step.py
lines 31-50). The validation raises ValueError on a falsy job_class or
job_jar; otherwise the args list is assembled by successive extends exactly
as in the source. -/
def EmrStep.populate_spark_submit_args (st : EmrStep) : Except String (List String) :=
  if optFalsy st.job_class then
    .error "value is not a valid main class"
  else if optFalsy st.job_jar then
    .error "value is not a valid JAR to execute with spark-submit"
  else
    let base := ["spark-submit", "--deploy-mode", "cluster"]
    let class_input := ["--class", st.job_class.getD ""]
    let sparkArgs := parse_input_args st.spark_args
    let userArgs := parse_input_args st.job_args
    let afterSpark := sparkArgs.foldl (fun acc a => acc ++ a) base
    let afterJar := afterSpark ++ class_input ++ [st.job_jar.getD ""]
    .ok (userArgs.foldl (fun acc a => acc ++ a) afterJar)

/-- The step payload dictionary built by EmrStep._construct_step_payload
(step.py lines 52-65). -/
structure StepPayload where
  name : String
  actionOnFailure : String
  jar : String
  args : List String
deriving DecidableEq, Repr

/-- EmrStep._construct_step_payload, also reached through the payload
property (step.py lines 52-65 and 93-99). -/
def EmrStep.construct_step_payload (st : EmrStep) : Except String StepPayload :=
  match st.populate_spark_submit_args with
  | .error e => .error e
  | .ok a => .ok ⟨st.name, st.action_on_failure, st.script_path, a⟩

/-- EmrStep.fetch_status (step.py lines 81-91). With no step or cluster
identifier the method logs a warning and returns the empty dictionary
(modelled none) without touching the remote; otherwise it stores and returns
the fetched status, re-raising a remote failure. The first component is the
step state after the call (mutations persist even when the call raises). -/
def EmrStep.fetch_status (st : EmrStep) (remote : Nat → Except String DescribeStepResp) :
    EmrStep × Except String (Option StepStatus) :=
  if optFalsy st.step_id || optFalsy st.cluster_id then
    (st, .ok none)
  else
    match get_step_status remote with
    | .error e => (st, .error e)
    | .ok s => ({st with step_status := some s}, .ok (some s))

/-- EmrStep.assign_to_cluster (step.py lines 67-79): records the cluster and
step identifiers, then fetches the status. The identifier assignments
persist even when the status fetch raises. -/
def EmrStep.assign_to_cluster (st : EmrStep) (cid sid : String)
    (remote : Nat → Except String DescribeStepResp) : EmrStep × Except String EmrStep :=
  let st1 := {st with cluster_id := some cid, step_id := some sid}
  let fetched := st1.fetch_status remote
  match fetched.2 with
  | .error e => (fetched.1, .error e)
  | .ok _ => (fetched.1, .ok fetched.1)

/-! Cluster model, from sparkflowtools/models/cluster.py. -/

/-- EmrCluster state (cluster.py lines 12-36). Applications are stored as
dictionaries of the single shape Name-to-string, modelled by the name. -/
structure EmrCluster where
  name : String
  cluster_id : Option String
  state : String
  log_uri : Option String
  emr_release_label : String
  applications : List String
  ec2_key_name : Option String
  ec2_subnet_id : Option String
  ec2_availability_zone : Option String
  ec2_role : String
  emr_role : String
  driver_security_group : Option String
  worker_security_group : Option String
  auto_terminate : Bool
  termination_protected : Bool
  fleet_type : String
  instance_fleets : List InstanceFleetSpec
  bootstrap_actions : List String
  visible_to_all_users : Bool
  configurations : List String
  tags : List Tag
  running_steps : List (String × EmrStep)
deriving DecidableEq, Repr

/-- EmrCluster.__init__ (cluster.py lines 12-36). -/
def EmrCluster.init (name : String) : EmrCluster where
  name := name
  cluster_id := none
  state := "Starting"
  log_uri := none
  emr_release_label := "emr-5.32.0"
  applications := ["Spark", "Zeppelin"]
  ec2_key_name := none
  ec2_subnet_id := none
  ec2_availability_zone := none
  ec2_role := "EMR_EC2_DefaultRole"
  emr_role := "EMR_DefaultRole"
  driver_security_group := none
  worker_security_group := none
  auto_terminate := false
  termination_protected := false
  fleet_type := "nano"
  instance_fleets := nanoFleet.get_fleet
  bootstrap_actions := []
  visible_to_all_users := true
  configurations := []
  tags := [⟨"fleet_type", "nano"⟩]
  running_steps := []

/-- s3_path_utils.is_valid_s3_path: the startswith test, expressed on the
character list (the prefix is ASCII, so byte-level and character-level
prefix tests agree). -/
def is_valid_s3_path (path : String) : Bool := path.data.take 5 == "s3://".data

/-- EmrCluster.add_log_uri (cluster.py lines 38-46); the assert raises
AssertionError on an invalid path. -/
def EmrCluster.add_log_uri (c : EmrCluster) (uri : String) : Except String EmrCluster :=
  if is_valid_s3_path uri then .ok {c with log_uri := some uri}
  else .error "AssertionError"

/-- EmrCluster.add_emr_release (cluster.py lines 48-56). -/
def EmrCluster.add_emr_release (c : EmrCluster) (lbl : String) : EmrCluster :=
  {c with emr_release_label := lbl}

/-- EmrCluster.add_applications (cluster.py lines 58-66): keeps only the
Name field of each application dictionary. -/
def EmrCluster.add_applications (c : EmrCluster) (apps : List Application) : EmrCluster :=
  {c with applications := apps.map Application.name}

/-- EmrCluster.add_ec2_attributes (cluster.py lines 68-80). -/
def EmrCluster.add_ec2_attributes (c : EmrCluster) (a : Ec2Attributes) : EmrCluster :=
  {c with
    ec2_key_name := some a.ec2KeyName
    ec2_subnet_id := some a.ec2SubnetId
    ec2_availability_zone := some a.ec2AvailabilityZone
    ec2_role := a.iamInstanceProfile
    driver_security_group := some a.emrManagedMasterSecurityGroup
    worker_security_group := some a.emrManagedSlaveSecurityGroup}

/-- EmrCluster.add_termination_behavior (cluster.py lines 82-92). -/
def EmrCluster.add_termination_behavior (c : EmrCluster)
    (auto_terminate termination_protection : Bool) : EmrCluster :=
  {c with auto_terminate := auto_terminate, termination_protected := termination_protection}

/-- EmrCluster.add_instance_fleet (cluster.py lines 94-102). The fleet_type
field is assigned before get_fleet is consulted, so on an unregistered name
the ValueError escapes (second component) with that assignment already
performed. -/
def EmrCluster.add_instance_fleet (c : EmrCluster) (ft : String) : EmrCluster × Option String :=
  let c1 := {c with fleet_type := ft}
  match get_fleet ft with
  | .error e => (c1, some e)
  | .ok f => ({c1 with instance_fleets := f.get_fleet}, none)

/-- EmrCluster.add_tags, the method (cluster.py lines 104-117). -/
def EmrCluster.add_tags (c : EmrCluster) (ts : List Tag) : EmrCluster :=
  {c with tags := Sparkflow.add_tags c.tags ts}

/-- EmrCluster.add_configurations (cluster.py lines 119-126). -/
def EmrCluster.add_configurations (c : EmrCluster) (cfg : List String) : EmrCluster :=
  {c with configurations := cfg}

/-- EmrCluster.add_service_role (cluster.py lines 128-135). -/
def EmrCluster.add_service_role (c : EmrCluster) (role : String) : EmrCluster :=
  {c with emr_role := role}

/-- The job_run_flow dictionary built by EmrCluster.launch (cluster.py
lines 143-160). Note that KeepJobFlowAliveWhenNoSteps receives the
auto_terminate field and that the security groups and availability zone
held by the builder appear nowhere in the dictionary. -/
structure JobRunFlow where
  name : String
  logUri : Option String
  releaseLabel : String
  instanceFleets : List InstanceFleetSpec
  ec2KeyName : Option String
  keepJobFlowAliveWhenNoSteps : Bool
  terminationProtected : Bool
  ec2SubnetIds : List (Option String)
  bootstrapActions : List String
  applications : List String
  configurations : List String
  visibleToAllUsers : Bool
  jobFlowRole : String
  serviceRole : String
  tags : List Tag
deriving DecidableEq, Repr

/-- The request payload serialization inside EmrCluster.launch. -/
def EmrCluster.job_run_flow (c : EmrCluster) : JobRunFlow :=
  { name := c.name
    logUri := c.log_uri
    releaseLabel := c.emr_release_label
    instanceFleets := c.instance_fleets
    ec2KeyName := c.ec2_key_name
    keepJobFlowAliveWhenNoSteps := c.auto_terminate
    terminationProtected := c.termination_protected
    ec2SubnetIds := [c.ec2_subnet_id]
    bootstrapActions := c.bootstrap_actions
    applications := c.applications
    configurations := c.configurations
    visibleToAllUsers := c.visible_to_all_users
    jobFlowRole := c.ec2_role
    serviceRole := c.emr_role
    tags := c.tags }

/-- EmrCluster.launch (cluster.py lines 137-168): the create_cluster call is
wrapped in a bare try/except that logs and swallows every failure, leaving
cluster_id untouched; the (possibly still unset) cluster_id is returned. -/
def EmrCluster.launch (c : EmrCluster) (remote : Nat → Except String RunJobFlowResp) :
    EmrCluster × Option String :=
  match create_cluster remote with
  | .ok r => ({c with cluster_id := some r.cluster_id}, some r.cluster_id)
  | .error _ => (c, c.cluster_id)

/-- EmrCluster.terminate (cluster.py lines 170-183): the terminate_clusters
call is wrapped in a try/except that logs and swallows every failure; the
method never raises and never mutates the cluster. -/
def EmrCluster.terminate (_c : EmrCluster) (remote : Nat → Except String Unit) :
    Except String Unit :=
  match terminate_clusters remote with
  | .ok _ => .ok ()
  | .error _ => .ok ()

/-- Insertion into the running_steps dictionary: replacement in place for an
existing key, append for a new one (CPython dictionary semantics). -/
def dictInsert (m : List (String × EmrStep)) (k : String) (v : EmrStep) :
    List (String × EmrStep) :=
  if m.any (fun p => p.1 == k) then
    m.map (fun p => if p.1 == k then (k, v) else p)
  else
    m ++ [(k, v)]

/-- Observable outcome of EmrCluster.submit_step: the cluster and step
states after the call, whether the remote submission was attempted, and the
exception surfaced to the caller (if any). -/
structure SubmitOutcome where
  cluster : EmrCluster
  step : EmrStep
  remote_called : Bool
  raised : Option String
deriving DecidableEq, Repr

/-- EmrCluster.submit_step (cluster.py lines 185-203). A falsy cluster_id
raises RuntimeError before the payload is built or any remote call is made.
The payload property is evaluated outside the try block, so a validation
failure also raises. Inside the try block every failure (remote submission,
missing StepIds entry, or the status fetch inside assign_to_cluster) is
logged and swallowed. -/
def EmrCluster.submit_step (c : EmrCluster) (st : EmrStep)
    (remoteSubmit : Nat → Except String AddJobFlowStepsResp)
    (remoteStatus : Nat → Except String DescribeStepResp) : SubmitOutcome :=
  if optFalsy c.cluster_id then
    ⟨c, st, false, some "Cannot submit a step to a cluster that is not running; launch cluster first"⟩
  else
    match st.construct_step_payload with
    | .error e => ⟨c, st, false, some e⟩
    | .ok _payload =>
      match Sparkflow.submit_step remoteSubmit with
      | .error _ => ⟨c, st, true, none⟩
      | .ok resp =>
        match resp.stepIds.head? with
        | none => ⟨c, st, true, none⟩
        | some sid =>
          let assigned := st.assign_to_cluster (c.cluster_id.getD "") sid remoteStatus
          match assigned.2 with
          | .error _ => ⟨c, assigned.1, true, none⟩
          | .ok st2 => ⟨{c with running_steps := dictInsert c.running_steps sid st2}, st2, true, none⟩

/-- EmrBuilder.get_fleet_type_from_tags (cluster.py lines 208-219): a loop
over the tags in which the last fleet_type tag wins; None when absent. -/
def get_fleet_type_from_tags (tags : List Tag) : Option String :=
  tags.foldl (fun acc t => if t.key == "fleet_type" then some t.value else acc) none

/-- Fleet-type recovery in EmrBuilder._create_cluster_from_cluster_info
(cluster.py lines 231-239): the tag value is probed with get_fleet, and a
ValueError (absent tag, hence get_fleet(None), or unregistered value) falls
back to the given cluster fleet_type. -/
def recoverFleetType (c : EmrCluster) (tags : List Tag) : String :=
  match get_fleet_type_from_tags tags with
  | none => c.fleet_type
  | some v =>
    match get_fleet v with
    | .ok _ => v
    | .error _ => c.fleet_type

/-- The builder chain of EmrBuilder._create_cluster_from_cluster_info
(cluster.py lines 240-245) applied to a cluster, producing the cluster state
that launch will serialize. The add_log_uri assert and an add_instance_fleet
ValueError propagate. -/
def build_cluster_from_cluster_info (c : EmrCluster) (info : ClusterInfo) :
    Except String EmrCluster :=
  let ft := recoverFleetType c info.tags
  match c.add_log_uri info.logUri with
  | .error e => .error e
  | .ok c1 =>
    let c2 := c1.add_emr_release info.releaseLabel
    let c3 := c2.add_applications info.applications
    let c4 := c3.add_ec2_attributes info.ec2InstanceAttributes
    let fleetStep := c4.add_instance_fleet ft
    match fleetStep.2 with
    | some e => .error e
    | none =>
      let c6 := fleetStep.1.add_tags info.tags
      let c7 := c6.add_termination_behavior info.autoTerminate info.terminationProtected
      let c8 := c7.add_configurations info.configurations
      .ok (c8.add_service_role info.serviceRole)

/-- The launch request produced when EmrBuilder.build_from_config rebuilds a
fresh EmrCluster from a cluster description and launches it (cluster.py
lines 248-261 followed by lines 143-160). The timestamp-derived name is
abstracted as the given name. -/
def request_from_cluster_info (name : String) (info : ClusterInfo) : Except String JobRunFlow :=
  match build_cluster_from_cluster_info (EmrCluster.init name) info with
  | .error e => .error e
  | .ok c => .ok c.job_run_flow

/-! Record store, from sparkflowtools/models/db.py and
sparkflowtools/utils/dynamo_db.py. -/

/-- A DynamoDB item (a dictionary). -/
abbrev DynamoItem := List (String × String)

/-- Response of the get_item endpoint as consumed by the source: the
optional Item and the optional HTTPStatusCode of the response metadata. -/
structure GetItemResp where
  item : Option DynamoItem
  httpStatusCode : Option Nat
deriving DecidableEq, Repr

/-- dynamo_db.get_item_from_dynamodb_table (utils/dynamo_db.py lines
45-71): retry-wrapped; every attempt issues the remote get_item with the
given key exactly as received and returns the pair of the optional item and
the response status. No validation of the key happens before the remote
call. -/
def get_item_from_dynamodb_table (key : List (String × String))
    (remote : List (String × String) → Nat → Except String GetItemResp) :
    Except String (Option DynamoItem × Option Nat) :=
  retryCall AWSApiConfig.RETRY_MAX (fun i =>
    match remote key i with
    | .error e => .error e
    | .ok r => .ok (r.item, r.httpStatusCode))

/-- db.Dynamo.get_record (models/db.py lines 90-95): a direct delegation to
get_item_from_dynamodb_table with the caller-supplied keys. -/
def get_record (keys : List (String × String))
    (remote : List (String × String) → Nat → Except String GetItemResp) :
    Except String (Option DynamoItem × Option Nat) :=
  get_item_from_dynamodb_table keys remote

/-- Python truthiness of the value returned by get_record: a tuple is truthy
exactly when it is nonempty, and get_record always returns a 2-tuple, so the
result is truthy whatever the pair holds (even with the item absent). -/
def pairTruthy (_p : Option DynamoItem × Option Nat) : Bool := true

/-- db.Dynamo.record_exists (models/db.py lines 107-115): False when the
value returned by get_record is falsy, True otherwise; a get_record failure
propagates. -/
def record_exists (keys : List (String × String))
    (remote : List (String × String) → Nat → Except String GetItemResp) :
    Except String Bool :=
  match get_record keys remote with
  | .error e => .error e
  | .ok p => if pairTruthy p then .ok true else .ok false

/-! Theorems. First, the behaviour of the add_tags removal loop. -/

/-- When no element at or beyond the iterator position matches the key, the
removal loop leaves the list untouched. -/
theorem popLoopF_no_match (k : String) :
    ∀ (fuel p : Nat) (l : List Tag), (∀ x ∈ l.drop p, x.key ≠ k) →
      popLoopF k fuel p l = l := by
  intro fuel
  induction fuel with
  | zero => intro p l _; rfl
  | succ fuel ih =>
    intro p l hno
    rw [popLoopF]
    by_cases h : p < l.length
    · have hcons : l.drop p = l[p] :: l.drop (p + 1) := List.drop_eq_getElem_cons h
      have hhead : (l.get ⟨p, h⟩).key ≠ k := by
        apply hno
        rw [hcons]
        exact List.mem_cons_self _ _
      simp only [dif_pos h, if_neg hhead]
      apply ih
      intro x hx
      apply hno
      rw [hcons]
      exact List.mem_cons_of_mem _ hx
    · simp [h]

/-- When at most one element at or beyond the iterator position matches the
key, the loop (given enough fuel) removes exactly the matching elements
beyond the position and keeps everything else in order. -/
theorem popLoopF_spec (k : String) :
    ∀ (fuel p : Nat) (l : List Tag), l.length ≤ p + fuel →
      (l.drop p).countP (fun x => x.key == k) ≤ 1 →
      popLoopF k fuel p l = l.take p ++ (l.drop p).filter (fun x => !(x.key == k)) := by
  intro fuel
  induction fuel with
  | zero =>
    intro p l hfuel _
    have hdrop : l.drop p = [] := List.drop_eq_nil_of_le (by omega)
    have htake : l.take p = l := List.take_of_length_le (by omega)
    simp [popLoopF, hdrop, htake]
  | succ fuel ih =>
    intro p l hfuel hcount
    rw [popLoopF]
    by_cases h : p < l.length
    · have hcons : l.drop p = l[p] :: l.drop (p + 1) := List.drop_eq_getElem_cons h
      by_cases hk : l[p].key = k
      · simp only [dif_pos h, List.get_eq_getElem, if_pos hk]
        have hzero : (l.drop (p + 1)).countP (fun x => x.key == k) = 0 := by
          rw [hcons, List.countP_cons] at hcount
          simp only [hk, beq_self_eq_true, if_pos] at hcount
          omega
        have hrest : ∀ x ∈ l.drop (p + 1), (x.key == k) = false := by
          intro x hx
          have hnot := List.countP_eq_zero.mp hzero x hx
          simpa using hnot
        have herase : l.eraseIdx p = l.take p ++ l.drop (p + 1) :=
          List.eraseIdx_eq_take_drop_succ l p
        have hlen_take : (l.take p).length = p := by
          rw [List.length_take]
          omega
        have hdrop_erase : (l.eraseIdx p).drop (p + 1) = l.drop (p + 2) := by
          rw [herase]
          rw [List.drop_append_eq_append_drop]
          have h1 : p + 1 - (l.take p).length = 1 := by omega
          have h2 : (l.take p).drop (p + 1) = [] := List.drop_eq_nil_of_le (by omega)
          rw [h1, h2, List.drop_drop]
          simp
        have hsub : l.drop (p + 2) ⊆ l.drop (p + 1) := by
          have h3 : l.drop (p + 2) = (l.drop (p + 1)).drop 1 := by
            rw [List.drop_drop]
          rw [h3]
          exact List.drop_subset _ _
        rw [popLoopF_no_match k fuel (p + 1) (l.eraseIdx p) ?_]
        · have hfil : (l.drop (p + 1)).filter (fun x => !(x.key == k)) = l.drop (p + 1) := by
            apply List.filter_eq_self.mpr
            intro a ha
            simp [hrest a ha]
          rw [herase, hcons, List.filter_cons]
          simp only [hk, beq_self_eq_true, Bool.not_true, hfil]
          simp
        · intro x hx
          rw [hdrop_erase] at hx
          have hfalse := hrest x (hsub hx)
          intro hxk
          rw [hxk] at hfalse
          simp at hfalse
      · simp only [dif_pos h, List.get_eq_getElem, if_neg hk]
        have hcount1 : (l.drop (p + 1)).countP (fun x => x.key == k) ≤ 1 := by
          rw [hcons, List.countP_cons] at hcount
          omega
        rw [ih (p + 1) l (by omega) hcount1]
        have htake : l.take (p + 1) = l.take p ++ [l[p]] := by
          rw [List.take_succ, List.getElem?_eq_getElem h]
          rfl
        have hkb : (l[p].key == k) = false := by
          simpa using hk
        rw [htake, hcons, List.filter_cons]
        simp only [hkb, Bool.not_false, if_true, List.append_assoc, List.singleton_append]
    · have hdrop : l.drop p = [] := List.drop_eq_nil_of_le (by omega)
      have htake : l.take p = l := List.take_of_length_le (by omega)
      simp [h, hdrop, htake]

/-- Executed on a list with at most one match (in particular on any list
with duplicate-free keys), the removal loop is a filter. -/
theorem popLoop_spec (k : String) (l : List Tag)
    (hcount : l.countP (fun x => x.key == k) ≤ 1) :
    popLoop k l = l.filter (fun x => !(x.key == k)) := by
  rw [popLoop, popLoopF_spec k l.length 0 l (by omega) (by simpa using hcount)]
  simp

/-- Duplicate-free keys bound every per-key match count by one. -/
theorem countP_key_le_one (l : List Tag) (hnd : (tagKeys l).Nodup) (k : String) :
    l.countP (fun x => x.key == k) ≤ 1 := by
  have h1 : l.countP (fun x => x.key == k) = (tagKeys l).count k := by
    rw [tagKeys, List.count, List.countP_map]
    rfl
  rw [h1]
  exact List.nodup_iff_count_le_one.mp hnd k

/-- The tag-removal pass of add_tags over all new tags, on a state with
duplicate-free keys, filters out exactly the entries whose key occurs among
the new tags. -/
theorem add_tags_loop_filter :
    ∀ (newTags s : List Tag), (tagKeys s).Nodup →
      newTags.foldl (fun acc t => popLoop t.key acc) s
        = s.filter (fun x => !(newTags.any (fun t => t.key == x.key))) := by
  intro newTags
  induction newTags with
  | nil =>
    intro s _
    simp
  | cons t ts ih =>
    intro s hs
    have hpop : popLoop t.key s = s.filter (fun x => !(x.key == t.key)) :=
      popLoop_spec t.key s (countP_key_le_one s hs t.key)
    have hsub : (tagKeys (s.filter (fun x => !(x.key == t.key)))).Nodup := by
      apply List.Nodup.sublist _ hs
      exact List.Sublist.map Tag.key (List.filter_sublist s)
    calc (t :: ts).foldl (fun acc u => popLoop u.key acc) s
        = ts.foldl (fun acc u => popLoop u.key acc) (popLoop t.key s) := by rfl
      _ = (s.filter (fun x => !(x.key == t.key))).filter
            (fun x => !(ts.any (fun u => u.key == x.key))) := by
          rw [hpop, ih _ hsub]
      _ = s.filter (fun x => !((t :: ts).any (fun u => u.key == x.key))) := by
          rw [List.filter_filter]
          apply List.filter_congr
          intro x _
          by_cases hxt : x.key = t.key
          · simp [hxt, Bool.and_comm]
          · have h1 : (x.key == t.key) = false := by simpa using hxt
            have h2 : (t.key == x.key) = false := by
              simpa using (Ne.symm hxt)
            simp [h1, h2]

/-- Structural form of add_tags on a state with duplicate-free keys: the
surviving old entries (those whose key is not re-added), in order, followed
by the new tag list. -/
theorem add_tags_eq (s ts : List Tag) (hs : (tagKeys s).Nodup) :
    add_tags s ts = s.filter (fun x => !(ts.any (fun t => t.key == x.key))) ++ ts := by
  rw [add_tags, add_tags_loop_filter ts s hs]

/-- add_tags preserves duplicate-freeness of the keys when the new list has
duplicate-free keys. -/
theorem add_tags_keys_nodup (s ts : List Tag)
    (hs : (tagKeys s).Nodup) (hts : (tagKeys ts).Nodup) :
    (tagKeys (add_tags s ts)).Nodup := by
  rw [add_tags_eq s ts hs, tagKeys, List.map_append]
  apply List.Nodup.append
  · exact List.Nodup.sublist (List.Sublist.map Tag.key (List.filter_sublist s)) hs
  · exact hts
  · intro a ha hb
    rw [List.mem_map] at ha hb
    obtain ⟨x, hx, hxa⟩ := ha
    obtain ⟨t, ht, hta⟩ := hb
    rw [List.mem_filter] at hx
    have h4 : (ts.any fun t => t.key == x.key) = false := by
      simpa using hx.2
    rw [List.any_eq_false] at h4
    have hcontra := h4 t ht
    rw [hta, ← hxa] at hcontra
    simp at hcontra

/-- C1. The claim fails as stated: starting from the constructor tag state
and applying T1 = [a:1, a:2] (a duplicated key) then T2 = [a:3], the
removal loop of add_tags pops during iteration and skips the entry that
slides into the popped position, so the stale entry a:2 survives and the
key a of T2 occurs twice in the result instead of exactly once. -/
theorem C1_counterexample :
    add_tags (add_tags [⟨"fleet_type", "nano"⟩] [⟨"a", "1"⟩, ⟨"a", "2"⟩]) [⟨"a", "3"⟩]
      = [⟨"fleet_type", "nano"⟩, ⟨"a", "2"⟩, ⟨"a", "3"⟩]
    ∧ ¬ (add_tags (add_tags [⟨"fleet_type", "nano"⟩] [⟨"a", "1"⟩, ⟨"a", "2"⟩])
          [⟨"a", "3"⟩]).countP (fun t => t.key == "a") = 1 := by
  constructor
  · rfl
  · decide

/-- C1 (amended). When the starting tag state and each applied tag list
carry pairwise-distinct keys, applying T1 then T2 through add_tags yields
exactly the post-T1 entries whose key does not occur in T2, in order,
followed by T2; the resulting keys are duplicate-free and every key of T2
occurs exactly once (hence with the T2 value). -/
theorem C1_tag_merge (s T1 T2 : List Tag)
    (hs : (tagKeys s).Nodup) (h1 : (tagKeys T1).Nodup) (h2 : (tagKeys T2).Nodup) :
    add_tags (add_tags s T1) T2
      = (add_tags s T1).filter (fun x => !(T2.any (fun t => t.key == x.key))) ++ T2
    ∧ (tagKeys (add_tags (add_tags s T1) T2)).Nodup
    ∧ ∀ t ∈ T2, (add_tags (add_tags s T1) T2).countP (fun x => x.key == t.key) = 1 := by
  have hmid : (tagKeys (add_tags s T1)).Nodup := add_tags_keys_nodup s T1 hs h1
  have heq := add_tags_eq (add_tags s T1) T2 hmid
  refine ⟨heq, add_tags_keys_nodup _ T2 hmid h2, ?_⟩
  intro t ht
  rw [heq, List.countP_append]
  have hleft : ((add_tags s T1).filter
      (fun x => !(T2.any (fun u => u.key == x.key)))).countP
        (fun x => x.key == t.key) = 0 := by
    apply List.countP_eq_zero.mpr
    intro x hx
    rw [List.mem_filter] at hx
    have hany : (T2.any fun u => u.key == x.key) = false := by
      simpa using hx.2
    rw [List.any_eq_false] at hany
    have hne : t.key ≠ x.key := by simpa using hany t ht
    simp [Ne.symm hne]
  have hright : T2.countP (fun x => x.key == t.key) = 1 := by
    have hmap : T2.countP (fun x => x.key == t.key) = (tagKeys T2).count t.key := by
      rw [tagKeys, List.count, List.countP_map]
      rfl
    rw [hmap]
    exact List.count_eq_one_of_mem h2 (List.mem_map_of_mem Tag.key ht)
  omega

/-- Witness for C1 (amended) at a concrete instance. -/
theorem C1_tag_merge_witness :
    (tagKeys [Tag.mk "x" "0"]).Nodup
    ∧ (tagKeys [Tag.mk "a" "1"]).Nodup
    ∧ (tagKeys [Tag.mk "a" "2"]).Nodup
    ∧ (add_tags (add_tags [Tag.mk "x" "0"] [Tag.mk "a" "1"]) [Tag.mk "a" "2"]
        = ([Tag.mk "x" "0", Tag.mk "a" "1"].filter
            (fun x => !([Tag.mk "a" "2"].any (fun t => t.key == x.key)))) ++ [Tag.mk "a" "2"]
      ∧ (tagKeys (add_tags (add_tags [Tag.mk "x" "0"] [Tag.mk "a" "1"]) [Tag.mk "a" "2"])).Nodup
      ∧ ∀ t ∈ [Tag.mk "a" "2"],
          (add_tags (add_tags [Tag.mk "x" "0"] [Tag.mk "a" "1"]) [Tag.mk "a" "2"]).countP
            (fun x => x.key == t.key) = 1) := by
  refine ⟨by decide, by decide, by decide, ?_⟩
  have h := C1_tag_merge [Tag.mk "x" "0"] [Tag.mk "a" "1"] [Tag.mk "a" "2"]
    (by decide) (by decide) (by decide)
  have hmid : add_tags [Tag.mk "x" "0"] [Tag.mk "a" "1"] = [Tag.mk "x" "0", Tag.mk "a" "1"] := by
    rfl
  rw [hmid] at h
  exact h

/-! Behaviour of the retry executor. -/

/-- The retry loop returns the first success: if the attempts before `i + k`
fail and attempt `i + k` succeeds within the remaining budget, the success
value is returned. -/
theorem retryWrap_first_ok {E A : Type} (o : Nat → Except E A) (v : A) :
    ∀ (k fuel i : Nat), k ≤ fuel → (∀ j < k, (o (i + j)).isOk = false) →
      o (i + k) = .ok v → retryWrap o i fuel = .ok v := by
  intro k
  induction k with
  | zero =>
    intro fuel i _ _ hok
    rw [Nat.add_zero] at hok
    cases fuel with
    | zero => simpa [retryWrap] using hok
    | succ m => rw [retryWrap, hok]
  | succ k ih =>
    intro fuel i hk hfail hok
    cases fuel with
    | zero => omega
    | succ m =>
      rw [retryWrap]
      have h0 : (o i).isOk = false := by
        have := hfail 0 (by omega)
        simpa using this
      cases ho : o i with
      | ok a => rw [ho] at h0; simp [Except.isOk, Except.toBool] at h0
      | error e =>
        show retryWrap o (i + 1) m = Except.ok v
        apply ih m (i + 1) (by omega)
        · intro j hj
          have := hfail (j + 1) (by omega)
          have harith : i + (j + 1) = i + 1 + j := by omega
          rwa [harith] at this
        · have harith : i + (k + 1) = i + 1 + k := by omega
          rwa [harith] at hok


/-- When every attempt fails with the same error, the retry loop surfaces
that error after exhausting its budget. -/
theorem retryWrap_allfail {E A : Type} (o : Nat → Except E A) (e : E)
    (h : ∀ i, o i = .error e) : ∀ (fuel i : Nat), retryWrap o i fuel = .error e := by
  intro fuel
  induction fuel with
  | zero => intro i; simpa [retryWrap] using h i
  | succ m ih =>
    intro i
    rw [retryWrap, h i]
    exact ih (i + 1)

/-- retryCall returns the success of attempt `n` (1-based) when the earlier
attempts fail and `n` is within the attempt budget. -/
theorem retryCall_first_ok {E A : Type} (o : Nat → Except E A) (v : A) (n attempts : Nat)
    (h1 : 1 ≤ n) (h2 : n ≤ attempts) (hfail : ∀ j < n - 1, (o j).isOk = false)
    (hok : o (n - 1) = .ok v) : retryCall attempts o = .ok v := by
  rw [retryCall]
  apply retryWrap_first_ok o v (n - 1) (attempts - 1) 0 (by omega)
  · intro j hj
    simpa using hfail j hj
  · simpa using hok

/-- retryCall surfaces the error of a call failing on every attempt. -/
theorem retryCall_allfail {E A : Type} (o : Nat → Except E A) (e : E) (attempts : Nat)
    (h : ∀ i, o i = .error e) : retryCall attempts o = .error e := by
  rw [retryCall]
  exact retryWrap_allfail o e h (attempts - 1) 0

/-- C2 (counterexample). emr.create_cluster carries no retry decorator: a
remote that fails on the first attempt and would succeed on the second
(well within RETRY_MAX = 5 attempts) makes create_cluster surface the error
instead of returning the success value, while the same failure pattern
through the retry-wrapped emr.submit_step returns the success. -/
theorem C2_counterexample :
    (fun i => if i = 0 then (Except.error "transient" : Except String RunJobFlowResp)
              else Except.ok ⟨"j-1", "arn-1"⟩) 1 = Except.ok ⟨"j-1", "arn-1"⟩
    ∧ 2 ≤ AWSApiConfig.RETRY_MAX
    ∧ create_cluster (fun i => if i = 0 then Except.error "transient"
        else Except.ok ⟨"j-1", "arn-1"⟩) = Except.error "transient"
    ∧ submit_step (fun i => if i = 0 then (Except.error "transient" : Except String AddJobFlowStepsResp)
        else Except.ok ⟨["s-1"]⟩) = Except.ok ⟨["s-1"]⟩ := by
  refine ⟨rfl, by decide, rfl, ?_⟩
  rfl

/-- C2 (amended). The retry-wrapped remote calls of the lifecycle paths
(add-steps, describe-cluster, terminate, describe-step) return the success
of attempt n when the first n-1 attempts fail and n is at most RETRY_MAX,
and surface the error of a call failing on every attempt; create_cluster,
however, is not wrapped: it makes a single attempt and surfaces its failure
immediately. All the wrappers share the process-wide AWSApiConfig
constants. -/
theorem C2_retry_policy :
    (∀ (o : Nat → Except String AddJobFlowStepsResp) (v : AddJobFlowStepsResp) (n : Nat),
      1 ≤ n → n ≤ AWSApiConfig.RETRY_MAX → (∀ j < n - 1, (o j).isOk = false) →
      o (n - 1) = .ok v → submit_step o = .ok v)
    ∧ (∀ (o : Nat → Except String ClusterInfo) (v : ClusterInfo) (n : Nat),
      1 ≤ n → n ≤ AWSApiConfig.RETRY_MAX → (∀ j < n - 1, (o j).isOk = false) →
      o (n - 1) = .ok v → get_cluster_info o = .ok v)
    ∧ (∀ (o : Nat → Except String Unit) (v : Unit) (n : Nat),
      1 ≤ n → n ≤ AWSApiConfig.RETRY_MAX → (∀ j < n - 1, (o j).isOk = false) →
      o (n - 1) = .ok v → terminate_clusters o = .ok v)
    ∧ (∀ (o : Nat → Except String DescribeStepResp) (r : DescribeStepResp) (n : Nat),
      1 ≤ n → n ≤ AWSApiConfig.RETRY_MAX → (∀ j < n - 1, (o j).isOk = false) →
      o (n - 1) = .ok r → get_step_status o = .ok r.status)
    ∧ (∀ (o : Nat → Except String AddJobFlowStepsResp) (e : String),
      (∀ i, o i = .error e) → submit_step o = .error e)
    ∧ (∀ (o : Nat → Except String DescribeStepResp) (e : String),
      (∀ i, o i = .error e) → get_step_status o = .error e)
    ∧ (∀ (o : Nat → Except String RunJobFlowResp) (e : String),
      o 0 = .error e → create_cluster o = .error e) := by
  refine ⟨?_, ?_, ?_, ?_, ?_, ?_, ?_⟩
  · intro o v n h1 h2 hfail hok
    exact retryCall_first_ok o v n _ h1 h2 hfail hok
  · intro o v n h1 h2 hfail hok
    exact retryCall_first_ok o v n _ h1 h2 hfail hok
  · intro o v n h1 h2 hfail hok
    exact retryCall_first_ok o v n _ h1 h2 hfail hok
  · intro o r n h1 h2 hfail hok
    rw [get_step_status]
    apply retryCall_first_ok _ r.status n _ h1 h2
    · intro j hj
      have hjf := hfail j hj
      cases ho : o j with
      | ok a => rw [ho] at hjf; simp [Except.isOk, Except.toBool] at hjf
      | error e => simp [Except.isOk, Except.toBool]
    · rw [hok]
  · intro o e h
    exact retryCall_allfail o e _ h
  · intro o e h
    rw [get_step_status]
    apply retryCall_allfail
    intro i
    rw [h i]
  · intro o e h
    rw [create_cluster, h]

/-- Witness for C2 (amended): a second-attempt success through the wrapped
submit_step and a constant failure through get_step_status, at concrete
oracles. -/
theorem C2_retry_policy_witness :
    ((1 : Nat) ≤ 2 ∧ 2 ≤ AWSApiConfig.RETRY_MAX
      ∧ (∀ j < 2 - 1, ((fun i => if i = 0
            then (Except.error "boom" : Except String AddJobFlowStepsResp)
            else Except.ok ⟨["s-1"]⟩) j).isOk = false)
      ∧ (fun i => if i = 0 then (Except.error "boom" : Except String AddJobFlowStepsResp)
          else Except.ok ⟨["s-1"]⟩) (2 - 1) = Except.ok ⟨["s-1"]⟩
      ∧ submit_step (fun i => if i = 0
          then (Except.error "boom" : Except String AddJobFlowStepsResp)
          else Except.ok ⟨["s-1"]⟩) = Except.ok ⟨["s-1"]⟩)
    ∧ ((∀ i : Nat, (fun _ : Nat => (Except.error "down" : Except String DescribeStepResp)) i
          = Except.error "down")
      ∧ get_step_status (fun _ => Except.error "down") = Except.error "down") := by
  constructor
  · refine ⟨by decide, by decide, by decide, rfl, ?_⟩
    exact C2_retry_policy.1 _ ⟨["s-1"]⟩ 2 (by decide) (by decide) (by decide) rfl
  · refine ⟨fun i => rfl, ?_⟩
    exact C2_retry_policy.2.2.2.2.2.1 _ "down" (fun i => rfl)

/-- C3. Suppression asymmetry of the lifecycle operations: a remote failure
inside launch is swallowed and leaves the cluster (in particular its
cluster_id) unchanged, returning the old identifier; terminate never raises
whatever the remote does; a remote submission failure inside submit_step
(with the cluster-id precondition satisfied and a valid step payload) is
swallowed, surfacing no error and leaving both the step (unbound) and the
cluster (running_steps included) unchanged; whereas the read paths -- the
step status fetch of a bound step and the describe-cluster wrapper --
re-raise the error after retry exhaustion. -/
theorem C3_error_asymmetry :
    (∀ (c : EmrCluster) (o : Nat → Except String RunJobFlowResp) (e : String),
      o 0 = .error e → c.launch o = (c, c.cluster_id))
    ∧ (∀ (c : EmrCluster) (o : Nat → Except String Unit), c.terminate o = .ok ())
    ∧ (∀ (c : EmrCluster) (st : EmrStep) (p : StepPayload)
        (oS : Nat → Except String AddJobFlowStepsResp)
        (oT : Nat → Except String DescribeStepResp) (e : String),
      optFalsy c.cluster_id = false → st.construct_step_payload = .ok p →
      (∀ i, oS i = .error e) →
      c.submit_step st oS oT = ⟨c, st, true, none⟩)
    ∧ (∀ (st : EmrStep) (o : Nat → Except String DescribeStepResp) (e : String),
      optFalsy st.step_id = false → optFalsy st.cluster_id = false →
      (∀ i, o i = .error e) → st.fetch_status o = (st, .error e))
    ∧ (∀ (o : Nat → Except String ClusterInfo) (e : String),
      (∀ i, o i = .error e) → get_cluster_info o = .error e) := by
  refine ⟨?_, ?_, ?_, ?_, ?_⟩
  · intro c o e h
    have hc : create_cluster o = .error e := by rw [create_cluster, h]
    rw [EmrCluster.launch, hc]
  · intro c o
    rw [EmrCluster.terminate]
    cases terminate_clusters o <;> rfl
  · intro c st p oS oT e hid hp hfail
    have hsub : Sparkflow.submit_step oS = .error e := retryCall_allfail oS e _ hfail
    rw [EmrCluster.submit_step, hid, hp, hsub]
    rfl
  · intro st o e h1 h2 hfail
    have hs : get_step_status o = .error e := by
      rw [get_step_status]
      apply retryCall_allfail
      intro i
      rw [hfail i]
    rw [EmrStep.fetch_status, h1, h2, hs]
    rfl
  · intro o e h
    exact retryCall_allfail o e _ h

/-- Witness for C3 at concrete inputs: a launched-cluster handle, a valid
step, and constantly failing remotes. -/
theorem C3_error_asymmetry_witness :
    ((fun _ : Nat => (Except.error "x" : Except String RunJobFlowResp)) 0 = Except.error "x"
      ∧ (EmrCluster.init "c").launch (fun _ => Except.error "x")
          = (EmrCluster.init "c", (EmrCluster.init "c").cluster_id))
    ∧ (optFalsy {EmrCluster.init "c" with cluster_id := some "j-1"}.cluster_id = false
      ∧ ({EmrStep.init "s" with job_class := some "M", job_jar := some "a.jar"}
            : EmrStep).construct_step_payload
          = Except.ok ⟨"s", "TERMINATE_CLUSTER", "command-runner.jar",
              ["spark-submit", "--deploy-mode", "cluster", "--class", "M", "a.jar"]⟩
      ∧ (∀ i : Nat, (fun _ : Nat => (Except.error "y" : Except String AddJobFlowStepsResp)) i
          = Except.error "y")
      ∧ ({EmrCluster.init "c" with cluster_id := some "j-1"} : EmrCluster).submit_step
          {EmrStep.init "s" with job_class := some "M", job_jar := some "a.jar"}
          (fun _ => Except.error "y") (fun _ => Except.ok ⟨⟨"RUNNING"⟩⟩)
        = ⟨{EmrCluster.init "c" with cluster_id := some "j-1"},
            {EmrStep.init "s" with job_class := some "M", job_jar := some "a.jar"}, true, none⟩)
    ∧ ((∀ i : Nat, (fun _ : Nat => (Except.error "z" : Except String ClusterInfo)) i
          = Except.error "z")
      ∧ get_cluster_info (fun _ => Except.error "z") = Except.error "z") := by
  refine ⟨⟨rfl, ?_⟩, ⟨rfl, rfl, fun i => rfl, ?_⟩, ⟨fun i => rfl, ?_⟩⟩
  · exact C3_error_asymmetry.1 (EmrCluster.init "c") (fun _ => Except.error "x") "x" rfl
  · exact C3_error_asymmetry.2.2.1 _ _
      ⟨"s", "TERMINATE_CLUSTER", "command-runner.jar",
        ["spark-submit", "--deploy-mode", "cluster", "--class", "M", "a.jar"]⟩
      _ _ "y" rfl rfl (fun i => rfl)
  · exact C3_error_asymmetry.2.2.2.2 _ "z" (fun i => rfl)

/-- Folding list extends onto a base is appending the concatenation. -/
theorem foldl_extend (l : List (List String)) :
    ∀ base : List String, l.foldl (fun acc a => acc ++ a) base = base ++ l.flatten := by
  induction l with
  | nil => intro base; simp
  | cons a as ih =>
    intro base
    rw [List.foldl_cons, ih (base ++ a), List.flatten]
    simp

/-- C5. db.Dynamo.get_record performs no key validation: called with a key
dictionary missing sort_key_name, it still hands the key to the remote
get-item call and returns whatever the remote produces -- a success when
the remote answers, and the remote error (surfaced only after the retry
wrapper exhausts its attempts, as with the KeyError raised by the mock
table in the repository test) when it raises. No InvalidKey error exists
before the remote call. -/
theorem C5_no_invalid_key_check :
    get_record [("partition_key_name", "some_partition_key")]
        (fun _ _ => Except.ok ⟨some [("k", "v")], some 200⟩)
      = Except.ok (some [("k", "v")], some 200)
    ∧ get_record [("partition_key_name", "some_partition_key")]
        (fun _ _ => Except.error "KeyError sort_key_name")
      = Except.error "KeyError sort_key_name" := by
  exact ⟨rfl, rfl⟩

/-- C6. The spark-submit argument vector is exactly the submission-mode
prefix, the framework-flag pairs in mapping order, the class selector and
class, the artifact, and the user-argument pairs in mapping order, with no
reordering. -/
theorem C6_spark_submit_args (nm jc jar : String) (sa ja : List (String × String))
    (h1 : jc ≠ "") (h2 : jar ≠ "") :
    ({EmrStep.init nm with
        spark_args := sa
        job_args := ja
        job_class := some jc
        job_jar := some jar} : EmrStep).populate_spark_submit_args
      = .ok (["spark-submit", "--deploy-mode", "cluster"]
          ++ (parse_input_args sa).flatten ++ ["--class", jc, jar]
          ++ (parse_input_args ja).flatten) := by
  have hb1 : optFalsy (some jc) = false := by simpa [optFalsy] using h1
  have hb2 : optFalsy (some jar) = false := by simpa [optFalsy] using h2
  rw [EmrStep.populate_spark_submit_args]
  simp only [hb1, hb2, Bool.false_eq_true, if_false]
  rw [foldl_extend, foldl_extend]
  simp [List.append_assoc]

/-- Witness for C6 at the inputs of the repository test: framework flags
executor-memory 6G and num-executors 1, job argument -some_argument
some_value, class some_class, artifact some_jar. -/
theorem C6_spark_submit_args_witness :
    ("some_class" : String) ≠ ""
    ∧ ("some_jar" : String) ≠ ""
    ∧ ({EmrStep.init "s" with
          spark_args := [("--executor-memory", "6G"), ("--num-executors", "1")]
          job_args := [("-some_argument", "some_value")]
          job_class := some "some_class"
          job_jar := some "some_jar"}
        : EmrStep).populate_spark_submit_args
      = .ok ["spark-submit", "--deploy-mode", "cluster", "--executor-memory", "6G",
          "--num-executors", "1", "--class", "some_class", "some_jar",
          "-some_argument", "some_value"] := by
  refine ⟨by decide, by decide, ?_⟩
  exact C6_spark_submit_args "s" "some_class" "some_jar"
    [("--executor-memory", "6G"), ("--num-executors", "1")]
    [("-some_argument", "some_value")] (by decide) (by decide)

/-- C8. submit_step on a cluster whose identifier is unassigned raises the
ClusterNotRunning RuntimeError with no remote call attempted, and leaves the
step (remote identifier and cluster binding) and the cluster step map
untouched. -/
theorem C8_submit_requires_cluster (c : EmrCluster) (st : EmrStep)
    (oS : Nat → Except String AddJobFlowStepsResp)
    (oT : Nat → Except String DescribeStepResp)
    (h : c.cluster_id = none) :
    c.submit_step st oS oT
      = ⟨c, st, false,
          some "Cannot submit a step to a cluster that is not running; launch cluster first"⟩ := by
  rw [EmrCluster.submit_step, h]
  rfl

/-- Witness for C8 on a freshly constructed cluster and step. -/
theorem C8_submit_requires_cluster_witness :
    (EmrCluster.init "c").cluster_id = none
    ∧ (EmrCluster.init "c").submit_step (EmrStep.init "s")
        (fun _ => Except.ok ⟨["s-1"]⟩) (fun _ => Except.ok ⟨⟨"RUNNING"⟩⟩)
      = ⟨EmrCluster.init "c", EmrStep.init "s", false,
          some "Cannot submit a step to a cluster that is not running; launch cluster first"⟩ := by
  refine ⟨rfl, ?_⟩
  exact C8_submit_requires_cluster (EmrCluster.init "c") (EmrStep.init "s") _ _ rfl

/-- C9. Whenever get_record succeeds, record_exists returns True whatever
the returned pair holds: the pair (item, status) is a nonempty tuple, hence
truthy in Python, even when the item is absent. -/
theorem C9_record_exists_truthy (keys : List (String × String))
    (remote : List (String × String) → Nat → Except String GetItemResp)
    (p : Option DynamoItem × Option Nat)
    (h : get_record keys remote = .ok p) :
    record_exists keys remote = .ok true := by
  rw [record_exists, h]
  rfl

/-- Witness for C9: a remote answering 200 with no item found still yields
record_exists True. -/
theorem C9_record_exists_truthy_witness :
    get_record [("partition_key_name", "pk"), ("sort_key_name", "sk")]
        (fun _ _ => Except.ok ⟨none, some 200⟩)
      = Except.ok ((none : Option DynamoItem), some 200)
    ∧ record_exists [("partition_key_name", "pk"), ("sort_key_name", "sk")]
        (fun _ _ => Except.ok ⟨none, some 200⟩)
      = Except.ok true := by
  refine ⟨rfl, ?_⟩
  exact C9_record_exists_truthy _ _ (none, some 200) rfl

/-- Every registered name resolves through get_fleet to a fleet whose name
is the requested one and whose resolution lists exactly the driver (on
demand capacity one), core and task sub-specs. -/
theorem get_fleet_of_registered (s : String) (hs : s ∈ registeredFleetNames) :
    ∃ f : Fleet, get_fleet s = .ok f ∧ f.name = s
      ∧ f.get_fleet.length = 3
      ∧ f.get_fleet.map InstanceFleetSpec.instanceFleetType = ["MASTER", "CORE", "TASK"]
      ∧ f.get_fleet.map InstanceFleetSpec.targetOnDemandCapacity = [some 1, none, none] := by
  fin_cases hs
  · exact ⟨nanoFleet, rfl, rfl, rfl, rfl, rfl⟩
  · exact ⟨tinyFleet, rfl, rfl, rfl, rfl, rfl⟩
  · exact ⟨smallFleet, rfl, rfl, rfl, rfl, rfl⟩
  · exact ⟨standardFleet, rfl, rfl, rfl, rfl, rfl⟩
  · exact ⟨mediumFleet, rfl, rfl, rfl, rfl, rfl⟩
  · exact ⟨largeFleet, rfl, rfl, rfl, rfl, rfl⟩
  · exact ⟨hugeFleet, rfl, rfl, rfl, rfl, rfl⟩

/-- An unregistered name makes get_fleet fail with the ValueError. -/
theorem get_fleet_not_registered (s : String) (hs : s ∉ registeredFleetNames) :
    get_fleet s = .error ("fleet type " ++ s ++ " is not one of the supported types") := by
  rw [get_fleet]
  cases hfind : fleetCatalog.find? (fun p => p.1 == s) with
  | none => rfl
  | some p =>
    exfalso
    have hp := List.find?_some hfind
    have hmem := List.mem_of_find?_eq_some hfind
    apply hs
    rw [registeredFleetNames]
    have hps : p.1 = s := by simpa using hp
    rw [← hps]
    exact List.mem_map_of_mem Prod.fst hmem

/-- C7. For each of the seven registered preset names, get_fleet succeeds
with a fleet named as requested whose resolution yields exactly the three
sub-specs (driver with on-demand capacity one, core, task); any other name
fails with the ValueError. Purity holds by construction: the lookup is a
function of the name alone. -/
theorem C7_fleet_catalog :
    registeredFleetNames = ["nano", "tiny", "small", "standard", "medium", "large", "huge"]
    ∧ (∀ s ∈ registeredFleetNames,
        ∃ f : Fleet, get_fleet s = .ok f ∧ f.name = s
          ∧ f.get_fleet.length = 3
          ∧ f.get_fleet.map InstanceFleetSpec.instanceFleetType = ["MASTER", "CORE", "TASK"]
          ∧ f.get_fleet.map InstanceFleetSpec.targetOnDemandCapacity = [some 1, none, none])
    ∧ (∀ s, s ∉ registeredFleetNames →
        get_fleet s = .error ("fleet type " ++ s ++ " is not one of the supported types")) :=
  ⟨rfl, get_fleet_of_registered, get_fleet_not_registered⟩

/-- Witness for C7 at the registered name small and the unregistered name
bogus. -/
theorem C7_fleet_catalog_witness :
    ("small" ∈ registeredFleetNames
      ∧ ∃ f : Fleet, get_fleet "small" = .ok f ∧ f.name = "small"
          ∧ f.get_fleet.length = 3
          ∧ f.get_fleet.map InstanceFleetSpec.instanceFleetType = ["MASTER", "CORE", "TASK"]
          ∧ f.get_fleet.map InstanceFleetSpec.targetOnDemandCapacity = [some 1, none, none])
    ∧ ("bogus" ∉ registeredFleetNames
      ∧ get_fleet "bogus" = .error "fleet type bogus is not one of the supported types") := by
  constructor
  · exact ⟨by decide, C7_fleet_catalog.2.1 "small" (by decide)⟩
  · exact ⟨by decide, C7_fleet_catalog.2.2 "bogus" (by decide)⟩

/-- C10. For a registered fleet name, add_instance_fleet raises nothing and
rewrites only the fleet_type field and the instance_fleets topology; every
other builder field, the tag list included, is unchanged -- so the
fleet_type tag written at construction keeps its value and, after
add_instance_fleet on a fresh cluster, get_fleet_type_from_tags still
reports nano while the fleet_type field reports the new name. -/
theorem C10_add_instance_fleet_frame :
    (∀ (c : EmrCluster) (ft : String), ft ∈ registeredFleetNames →
      (c.add_instance_fleet ft).2 = none
      ∧ (c.add_instance_fleet ft).1.fleet_type = ft
      ∧ (c.add_instance_fleet ft).1.name = c.name
      ∧ (c.add_instance_fleet ft).1.cluster_id = c.cluster_id
      ∧ (c.add_instance_fleet ft).1.state = c.state
      ∧ (c.add_instance_fleet ft).1.log_uri = c.log_uri
      ∧ (c.add_instance_fleet ft).1.emr_release_label = c.emr_release_label
      ∧ (c.add_instance_fleet ft).1.applications = c.applications
      ∧ (c.add_instance_fleet ft).1.ec2_key_name = c.ec2_key_name
      ∧ (c.add_instance_fleet ft).1.ec2_subnet_id = c.ec2_subnet_id
      ∧ (c.add_instance_fleet ft).1.ec2_availability_zone = c.ec2_availability_zone
      ∧ (c.add_instance_fleet ft).1.ec2_role = c.ec2_role
      ∧ (c.add_instance_fleet ft).1.emr_role = c.emr_role
      ∧ (c.add_instance_fleet ft).1.driver_security_group = c.driver_security_group
      ∧ (c.add_instance_fleet ft).1.worker_security_group = c.worker_security_group
      ∧ (c.add_instance_fleet ft).1.auto_terminate = c.auto_terminate
      ∧ (c.add_instance_fleet ft).1.termination_protected = c.termination_protected
      ∧ (c.add_instance_fleet ft).1.bootstrap_actions = c.bootstrap_actions
      ∧ (c.add_instance_fleet ft).1.visible_to_all_users = c.visible_to_all_users
      ∧ (c.add_instance_fleet ft).1.configurations = c.configurations
      ∧ (c.add_instance_fleet ft).1.tags = c.tags
      ∧ (c.add_instance_fleet ft).1.running_steps = c.running_steps)
    ∧ (get_fleet_type_from_tags ((EmrCluster.init "c").add_instance_fleet "small").1.tags
          = some "nano"
      ∧ ((EmrCluster.init "c").add_instance_fleet "small").1.fleet_type = "small") := by
  constructor
  · intro c ft hft
    obtain ⟨f, hf, -⟩ := get_fleet_of_registered ft hft
    rw [EmrCluster.add_instance_fleet, hf]
    exact ⟨rfl, rfl, rfl, rfl, rfl, rfl, rfl, rfl, rfl, rfl, rfl, rfl, rfl, rfl, rfl,
      rfl, rfl, rfl, rfl, rfl, rfl, rfl⟩
  · exact ⟨rfl, rfl⟩

/-- Witness for C10 at a fresh cluster and the registered name medium. -/
theorem C10_add_instance_fleet_frame_witness :
    ("medium" ∈ registeredFleetNames
      ∧ ((EmrCluster.init "w").add_instance_fleet "medium").2 = none
      ∧ ((EmrCluster.init "w").add_instance_fleet "medium").1.tags = (EmrCluster.init "w").tags) := by
  have h := C10_add_instance_fleet_frame.1 (EmrCluster.init "w") "medium" (by decide)
  exact ⟨by decide, h.1, h.2.2.2.2.2.2.2.2.2.2.2.2.2.2.2.2.2.2.2.2.1⟩

/-- add_tags of a new list onto a single registered tag keeps that tag
exactly when its key is not among the new keys. -/
theorem add_tags_singleton (x : Tag) (ts : List Tag) :
    add_tags [x] ts = (if hasKey ts x.key then [] else [x]) ++ ts := by
  have hnd : (tagKeys [x]).Nodup := by simp [tagKeys]
  rw [add_tags_eq [x] ts hnd, hasKey]
  cases h : ts.any (fun t => t.key == x.key) with
  | true => simp [h]
  | false => simp [h]

/-- When the fallback fleet type of the cluster is registered, the fleet
type recovered from arbitrary tags is always registered too. -/
theorem recoverFleetType_ok (c : EmrCluster) (tags : List Tag) (f0 : Fleet)
    (hc : get_fleet c.fleet_type = .ok f0) :
    ∃ f, get_fleet (recoverFleetType c tags) = .ok f := by
  unfold recoverFleetType
  split
  · exact ⟨f0, hc⟩
  · split
    · rename_i f hv
      exact ⟨f, hv⟩
    · exact ⟨f0, hc⟩

/-- C4 (amended). Rebuilding a fresh Cluster Request from a description
with a valid log URI always succeeds, and the produced launch request
carries over the description's release label, application names, key name,
subnet, instance profile, service role, configurations, and the two
termination flag values (AutoTerminate lands in the
KeepJobFlowAliveWhenNoSteps field, TerminationProtected in
TerminationProtected); the tags equal the description's tags exactly when
they contain a fleet_type key, and otherwise gain the builder's initial
default fleet_type tag in front. The described security groups and
availability zone are read into the builder but appear nowhere in the
request (see the counterexample). -/
theorem C4_rebuild_request (nm : String) (info : ClusterInfo)
    (hlog : is_valid_s3_path info.logUri = true) :
    ∃ req : JobRunFlow, request_from_cluster_info nm info = .ok req
      ∧ req.name = nm
      ∧ req.logUri = some info.logUri
      ∧ req.releaseLabel = info.releaseLabel
      ∧ req.applications = info.applications.map Application.name
      ∧ req.ec2KeyName = some info.ec2InstanceAttributes.ec2KeyName
      ∧ req.ec2SubnetIds = [some info.ec2InstanceAttributes.ec2SubnetId]
      ∧ req.jobFlowRole = info.ec2InstanceAttributes.iamInstanceProfile
      ∧ req.serviceRole = info.serviceRole
      ∧ req.keepJobFlowAliveWhenNoSteps = info.autoTerminate
      ∧ req.terminationProtected = info.terminationProtected
      ∧ req.configurations = info.configurations
      ∧ (hasKey info.tags "fleet_type" = true → req.tags = info.tags)
      ∧ (hasKey info.tags "fleet_type" = false →
          req.tags = Tag.mk "fleet_type" "nano" :: info.tags) := by
  obtain ⟨f, hf⟩ := recoverFleetType_ok (EmrCluster.init nm) info.tags nanoFleet rfl
  simp only [request_from_cluster_info, build_cluster_from_cluster_info,
    EmrCluster.add_log_uri, hlog, if_true, EmrCluster.add_emr_release,
    EmrCluster.add_applications, EmrCluster.add_ec2_attributes,
    EmrCluster.add_instance_fleet, hf, EmrCluster.add_tags,
    EmrCluster.add_termination_behavior, EmrCluster.add_configurations,
    EmrCluster.add_service_role, EmrCluster.job_run_flow]
  refine ⟨_, rfl, rfl, rfl, rfl, rfl, rfl, rfl, rfl, rfl, rfl, rfl, rfl, ?_, ?_⟩
  · intro h
    show add_tags (EmrCluster.init nm).tags info.tags = info.tags
    rw [show (EmrCluster.init nm).tags = [Tag.mk "fleet_type" "nano"] from rfl]
    rw [add_tags_singleton]
    simp [h]
  · intro h
    show add_tags (EmrCluster.init nm).tags info.tags = Tag.mk "fleet_type" "nano" :: info.tags
    rw [show (EmrCluster.init nm).tags = [Tag.mk "fleet_type" "nano"] from rfl]
    rw [add_tags_singleton]
    simp [h]

/-- C4 (counterexample). Two descriptions that differ only in the worker
security group produce identical launch requests, so the rebuilt request
cannot preserve the security groups of the description: the builder reads
them but the launch request serialization omits them. -/
theorem C4_counterexample :
    request_from_cluster_info "n"
        ⟨"s3://logs", "emr-6.0.0", [⟨"Spark", "2"⟩],
          ⟨"kn", "sub", "az", "prof", "sg-m", "sg-a"⟩,
          true, false, [⟨"fleet_type", "small"⟩], ["cfg"], "role"⟩
      = request_from_cluster_info "n"
        ⟨"s3://logs", "emr-6.0.0", [⟨"Spark", "2"⟩],
          ⟨"kn", "sub", "az", "prof", "sg-m", "sg-b"⟩,
          true, false, [⟨"fleet_type", "small"⟩], ["cfg"], "role"⟩
    ∧ ("sg-a" : String) ≠ "sg-b" := by
  exact ⟨rfl, by decide⟩

/-- Witness for C4 (amended) at a concrete description carrying a
registered fleet_type tag. -/
theorem C4_rebuild_request_witness :
    is_valid_s3_path
        (ClusterInfo.mk "s3://logs" "emr-6.0.0" [⟨"Spark", "2"⟩]
          ⟨"kn", "sub", "az", "prof", "sg-m", "sg-a"⟩
          true false [⟨"fleet_type", "small"⟩] ["cfg"] "role").logUri = true
    ∧ (∃ req : JobRunFlow,
        request_from_cluster_info "w2"
          (ClusterInfo.mk "s3://logs" "emr-6.0.0" [⟨"Spark", "2"⟩]
            ⟨"kn", "sub", "az", "prof", "sg-m", "sg-a"⟩
            true false [⟨"fleet_type", "small"⟩] ["cfg"] "role") = .ok req
        ∧ req.name = "w2"
        ∧ req.logUri = some "s3://logs"
        ∧ req.releaseLabel = "emr-6.0.0"
        ∧ req.applications = ["Spark"]
        ∧ req.ec2KeyName = some "kn"
        ∧ req.ec2SubnetIds = [some "sub"]
        ∧ req.jobFlowRole = "prof"
        ∧ req.serviceRole = "role"
        ∧ req.keepJobFlowAliveWhenNoSteps = true
        ∧ req.terminationProtected = false
        ∧ req.configurations = ["cfg"]
        ∧ req.tags = [Tag.mk "fleet_type" "small"]) := by
  refine ⟨rfl, ?_⟩
  obtain ⟨req, h0, h1, h2, h3, h4, h5, h6, h7, h8, h9, h10, h11, h12, -⟩ :=
    C4_rebuild_request "w2"
      (ClusterInfo.mk "s3://logs" "emr-6.0.0" [⟨"Spark", "2"⟩]
        ⟨"kn", "sub", "az", "prof", "sg-m", "sg-a"⟩
        true false [⟨"fleet_type", "small"⟩] ["cfg"] "role") rfl
  exact ⟨req, h0, h1, h2, h3, h4, h5, h6, h7, h8, h9, h10, h11, h12 rfl⟩
